import Mathlib

/-!
Shallow embedding of the jvmti-rust binding layer
(src/jvmti/src/emulator.rs, src/jvmti/src/environment/jvmti.rs,
src/jvmti/src/util.rs) together with theorems checking the
natural-language specification against it.

Machine bytes and pointer-sized identifiers are modelled as `Nat`;
opaque native function pointers (event handlers) are modelled as opaque
`Nat` identifiers; a raw C string handle is `Option (List Nat)` (null,
or the byte content the `CStr` yields before the terminator); handler
invocation is recorded as an explicit trace of (handler, payload) pairs.
-/

/-- Modelled from the spec: the closed error taxonomy of §7 (error.rs is not
under src/). `NoError` is the success status. -/
inductive NativeError where
  | NoError
  | NotAvailable
  | NotImplemented
  | InvalidClass
  | InvalidMethodId
  | InvalidThread
  | WrongPhase
  | OutOfMemory
  | InternalError
  | UnknownError
deriving DecidableEq, Repr

/-- Modelled from the spec: total status translation of §4.5 (error.rs
wrap_error is not under src/): code 0 is the success status, known
native codes map to their named kind, every unrecognized code maps to
the catch-all kind. -/
def wrap_error (code : Nat) : NativeError :=
  match code with
  | 0 => .NoError
  | 10 => .InvalidThread
  | 21 => .InvalidClass
  | 23 => .InvalidMethodId
  | 98 => .NotAvailable
  | 110 => .OutOfMemory
  | 112 => .WrongPhase
  | 113 => .InternalError
  | _ => .UnknownError

/-- Modelled from the spec: the closed capability enumeration of §3
(capabilities.rs is not under src/); the spec names these three examples. -/
structure Capabilities where
  can_generate_method_entry_events : Bool
  can_tag_objects : Bool
  can_redefine_classes : Bool
deriving DecidableEq, Repr

/-- Modelled from the spec: `Capabilities::new` — created empty (all false). -/
def Capabilities.new : Capabilities :=
  { can_generate_method_entry_events := false
    can_tag_objects := false
    can_redefine_classes := false }

/-- Modelled from the spec: `Capabilities::merge` — pure field-wise OR (§4.2). -/
def Capabilities.merge (a b : Capabilities) : Capabilities :=
  { can_generate_method_entry_events :=
      a.can_generate_method_entry_events || b.can_generate_method_entry_events
    can_tag_objects := a.can_tag_objects || b.can_tag_objects
    can_redefine_classes := a.can_redefine_classes || b.can_redefine_classes }

/-- Modelled from the spec: the closed event-kind enumeration of §3
(event.rs is not under src/). -/
inductive VMEvent where
  | VMInit
  | VMStart
  | VMDeath
  | VMObjectAlloc
  | MethodEntry
  | MethodExit
  | ThreadStart
  | ThreadEnd
  | Exception
  | ExceptionCatch
  | MonitorWait
  | MonitorWaited
  | MonitorContendedEnter
  | MonitorContendedEntered
  | FieldAccess
  | FieldModification
  | GarbageCollectionStart
  | GarbageCollectionFinish
  | ClassFileLoadHook
deriving DecidableEq, Repr

/-- An event handler is an opaque native function value; modelled as an
opaque identifier. -/
abbrev Handler := Nat

/-- Modelled from the spec: the event callback registry of §3 — one optional
handler slot per event kind (event.rs is not under src/; the slot list is
exactly the registration sequence of set_event_callbacks in
src/jvmti/src/environment/jvmti.rs). -/
structure EventCallbacks where
  vm_init : Option Handler
  vm_start : Option Handler
  vm_death : Option Handler
  vm_object_alloc : Option Handler
  method_entry : Option Handler
  method_exit : Option Handler
  thread_start : Option Handler
  thread_end : Option Handler
  exception : Option Handler
  exception_catch : Option Handler
  monitor_wait : Option Handler
  monitor_waited : Option Handler
  monitor_contended_enter : Option Handler
  monitor_contended_entered : Option Handler
  field_access : Option Handler
  field_modification : Option Handler
  garbage_collection_start : Option Handler
  garbage_collection_finish : Option Handler
  class_file_load_hook : Option Handler
deriving DecidableEq, Repr

/-- Modelled from the spec: `EventCallbacks::new` — no handler registered. -/
def EventCallbacks.new : EventCallbacks :=
  { vm_init := none, vm_start := none, vm_death := none
    vm_object_alloc := none, method_entry := none, method_exit := none
    thread_start := none, thread_end := none, exception := none
    exception_catch := none, monitor_wait := none, monitor_waited := none
    monitor_contended_enter := none, monitor_contended_entered := none
    field_access := none, field_modification := none
    garbage_collection_start := none, garbage_collection_finish := none
    class_file_load_hook := none }

/-- Modelled from the spec: the synthetic method-entry payload of the
test-double hook (§6), carrying a method identifier and a thread
identifier (runtime.rs is not under src/). -/
structure MethodInvocationEvent where
  method_id : Nat
  thread_id : Nat
deriving DecidableEq, Repr

/-- Opaque pointer-sized class handle (jclass). -/
abbrev JavaClass := Nat

/-- Opaque pointer-sized thread handle (jthread). -/
abbrev JavaThread := Nat

/-- Opaque pointer-sized object handle (jobject). -/
abbrev JavaObject := Nat

/-- Embeds method.rs MethodId: an opaque native method identifier. -/
structure MethodId where
  native_id : Nat
deriving DecidableEq, Repr

/-- Embeds class.rs ClassId: an opaque native class identifier. -/
structure ClassId where
  native_id : Nat
deriving DecidableEq, Repr

/-- Modelled from the spec: a method signature record holding the decoded
method name (method.rs is not under src/). -/
structure MethodSignature where
  name : String
deriving DecidableEq, Repr

/-- Modelled from the spec: `MethodSignature::new`. -/
def MethodSignature.new (name : String) : MethodSignature := { name := name }

/-- Modelled from the spec: a class internal-name descriptor parsed into a
structured type (class.rs JavaType is not under src/; only its role as the
decoded payload of get_class_signature matters here). -/
structure JavaType where
  descriptor : String
deriving DecidableEq, Repr

/-- Modelled from the spec: `JavaType::parse` of the decoded signature text. -/
def JavaType.parse (s : String) : JavaType := { descriptor := s }

/-- Embeds class.rs ClassSignature as used by get_class_signature. -/
structure ClassSignature where
  typ : JavaType
deriving DecidableEq, Repr

/-- Modelled from the spec: `ClassSignature::new`. -/
def ClassSignature.new (t : JavaType) : ClassSignature := { typ := t }

/-- Embeds thread.rs Thread as constructed by get_thread_info. -/
structure Thread where
  id : Nat
  name : String
  priority : Nat
  is_daemon : Bool
deriving DecidableEq, Repr

/-- Embeds mem.rs MemoryAllocation: a (pointer, length) pair. -/
structure MemoryAllocation where
  ptr : Nat
  len : Nat
deriving DecidableEq, Repr

/-- Embeds emulator.rs JVMTIClassDefinition usage: a (class handle,
replacement bytes) pair. -/
structure JVMTIClassDefinition where
  class_handle : JavaClass
  class_data : List Nat
deriving DecidableEq, Repr

/-- Embeds emulator.rs JVMEmulator: locally recorded capabilities, the
callback registry, and the event notification table (a HashMap, modelled
as a function to `Option Bool`: `none` for an absent key). -/
structure JVMEmulator where
  capabilities : Capabilities
  callbacks : EventCallbacks
  events : VMEvent → Option Bool

/-- Embeds JVMEmulator::new. -/
def JVMEmulator.new : JVMEmulator :=
  { capabilities := Capabilities.new
    callbacks := EventCallbacks.new
    events := fun _ => none }

/-- Embeds JVMEmulator::emit_method_entry. The Rust method takes `&self`
(no mutation is possible); its effect is the possible handler invocation,
returned here as an explicit invocation trace together with the (unchanged)
state. -/
def JVMEmulator.emit_method_entry (s : JVMEmulator) (event : MethodInvocationEvent) :
    List (Handler × MethodInvocationEvent) × JVMEmulator :=
  match s.callbacks.method_entry with
  | some handler => ([(handler, event)], s)
  | none => ([], s)

/-- Embeds JVMEmulator::get_all_threads. -/
def JVMEmulator.get_all_threads (_ : JVMEmulator) : Except NativeError (List JavaThread) :=
  .error .NotAvailable

/-- Embeds JVMEmulator::get_class_loader_loaded_classes. -/
def JVMEmulator.get_class_loader_loaded_classes (_ : JVMEmulator) (_ : JavaObject) :
    Except NativeError (List JavaClass) :=
  .error .NotAvailable

/-- Embeds JVMEmulator::retransform_classes. -/
def JVMEmulator.retransform_classes (_ : JVMEmulator) (_ : List JavaClass) :
    Except NativeError Unit :=
  .error .NotAvailable

/-- Embeds JVMEmulator::get_loaded_classes. -/
def JVMEmulator.get_loaded_classes (_ : JVMEmulator) : Except NativeError (List JavaClass) :=
  .error .NotAvailable

/-- Embeds JVMEmulator::redefine_classes. -/
def JVMEmulator.redefine_classes (_ : JVMEmulator) (_ : List JVMTIClassDefinition) :
    Except NativeError Unit :=
  .error .NotAvailable

/-- Embeds JVMEmulator::add_capabilities: merge into the stored set, commit,
return a clone of the committed set. -/
def JVMEmulator.add_capabilities (s : JVMEmulator) (new_capabilities : Capabilities) :
    JVMEmulator × Except NativeError Capabilities :=
  let merged := s.capabilities.merge new_capabilities
  ({ s with capabilities := merged }, .ok merged)

/-- Embeds JVMEmulator::get_capabilities. -/
def JVMEmulator.get_capabilities (s : JVMEmulator) : Capabilities :=
  s.capabilities

/-- Embeds JVMEmulator::set_event_callbacks: replace the whole registry,
report success. -/
def JVMEmulator.set_event_callbacks (s : JVMEmulator) (callbacks : EventCallbacks) :
    JVMEmulator × Option NativeError :=
  ({ s with callbacks := callbacks }, none)

/-- Embeds JVMEmulator::set_event_notification_mode:
`self.events.insert(event, mode)`, report success. -/
def JVMEmulator.set_event_notification_mode (s : JVMEmulator) (event : VMEvent) (mode : Bool) :
    JVMEmulator × Option NativeError :=
  ({ s with events := fun e => if e = event then some mode else s.events e }, none)

/-- Embeds JVMEmulator::get_thread_info. -/
def JVMEmulator.get_thread_info (_ : JVMEmulator) (_ : JavaThread) :
    Except NativeError Thread :=
  .error .NotImplemented

/-- Embeds JVMEmulator::get_method_declaring_class. -/
def JVMEmulator.get_method_declaring_class (_ : JVMEmulator) (_ : MethodId) :
    Except NativeError ClassId :=
  .error .NotImplemented

/-- Embeds JVMEmulator::get_method_name: the canned answer for native id
0x01, NotImplemented for every other id. -/
def JVMEmulator.get_method_name (_ : JVMEmulator) (method_id : MethodId) :
    Except NativeError MethodSignature :=
  if method_id.native_id = 1 then .ok (MethodSignature.new "")
  else .error .NotImplemented

/-- Embeds JVMEmulator::get_class_signature. -/
def JVMEmulator.get_class_signature (_ : JVMEmulator) (_ : ClassId) :
    Except NativeError ClassSignature :=
  .error .NotImplemented

/-- Embeds JVMEmulator::allocate: a null pointer with the requested length. -/
def JVMEmulator.allocate (_ : JVMEmulator) (len : Nat) :
    Except NativeError MemoryAllocation :=
  .ok { ptr := 0, len := len }

/-- The per-byte state of the UTF-8 validation automaton: `needed`
continuation bytes still expected, the partial scalar value accumulated so
far, and the allowed range for the next byte (the first continuation byte
of a sequence has a lead-specific range, later ones allow 0x80-0xBF). -/
def utf8DecodeGo : List Nat → Nat → Nat → Nat → Nat → Option (List Nat)
  | [], 0, _, _, _ => some []
  | [], _ + 1, _, _, _ => none
  | b :: rest, 0, _, _, _ =>
    if b < 0x80 then (utf8DecodeGo rest 0 0 0 0).map fun cs => b :: cs
    else if b < 0xC2 then none
    else if b < 0xE0 then utf8DecodeGo rest 1 (b - 0xC0) 0x80 0xBF
    else if b = 0xE0 then utf8DecodeGo rest 2 0 0xA0 0xBF
    else if b = 0xED then utf8DecodeGo rest 2 0xD 0x80 0x9F
    else if b < 0xF0 then utf8DecodeGo rest 2 (b - 0xE0) 0x80 0xBF
    else if b = 0xF0 then utf8DecodeGo rest 3 0 0x90 0xBF
    else if b = 0xF4 then utf8DecodeGo rest 3 4 0x80 0x8F
    else if b < 0xF5 then utf8DecodeGo rest 3 (b - 0xF0) 0x80 0xBF
    else none
  | b :: rest, 1, acc, lo, hi =>
    if lo ≤ b ∧ b ≤ hi then
      (utf8DecodeGo rest 0 0 0 0).map fun cs => (acc * 64 + (b - 0x80)) :: cs
    else none
  | b :: rest, needed + 2, acc, lo, hi =>
    if lo ≤ b ∧ b ≤ hi then
      utf8DecodeGo rest (needed + 1) (acc * 64 + (b - 0x80)) 0x80 0xBF
    else none

/-- UTF-8 validity-and-decoding of a byte list, embedding the check that
util.rs performs through `CStr::to_str` (Rust `str::from_utf8`, whose
validator is exactly this per-byte automaton: lead-byte dispatch with the
lead-specific range for the first continuation byte, rejecting truncated
sequences, stray continuation bytes, overlong forms, surrogates and values
above 0x10FFFF): `some` of the decoded scalar values for well-formed
UTF-8, `none` otherwise. -/
def utf8Decode (bytes : List Nat) : Option (List Nat) :=
  utf8DecodeGo bytes 0 0 0 0

/-- Embeds util.rs stringify. The raw C string handle is `none` for a null
pointer, otherwise `some` of the bytes the `CStr` yields. A null handle
gives the "(NULL)" sentinel, invalid UTF-8 gives the "(UTF8-ERROR)"
sentinel, valid UTF-8 gives the decoded string. -/
def stringify (input : Option (List Nat)) : String :=
  match input with
  | none => "(NULL)"
  | some bytes =>
    match utf8Decode bytes with
    | some cs => String.mk (cs.map Char.ofNat)
    | none => "(UTF8-ERROR)"

/-- Reference UTF-8 encoding of one scalar value, written from the UTF-8
specification (independent of `utf8Decode`). -/
def utf8EncodeChar (c : Nat) : List Nat :=
  if c < 0x80 then [c]
  else if c < 0x800 then [0xC0 + c / 64, 0x80 + c % 64]
  else if c < 0x10000 then [0xE0 + c / 4096, 0x80 + c / 64 % 64, 0x80 + c % 64]
  else [0xF0 + c / 0x40000, 0x80 + c / 4096 % 64, 0x80 + c / 64 % 64, 0x80 + c % 64]

/-- Reference UTF-8 encoding of a whole string. -/
def utf8EncodeString (s : String) : List Nat :=
  s.data.flatMap fun ch => utf8EncodeChar ch.toNat

/-- Embeds the native array-draining loop shared by get_loaded_classes,
get_class_loader_loaded_classes and get_all_threads:
`for _ in 0..count { let x = ptr.read(); ptr = ptr.add(1); acc.push(x) }`.
The native array is a function from offset to element; alongside the
accumulated vector the function records the trace of offsets actually read. -/
def drainLoop (arr : Nat → Nat) : Nat → Nat → List Nat → List Nat → List Nat × List Nat
  | 0, _, acc, reads => (acc, reads)
  | n + 1, ptr, acc, reads => drainLoop arr n (ptr + 1) (acc ++ [arr ptr]) (reads ++ [ptr])

/-- The draining loop started at the array head with empty accumulators. -/
def drain (arr : Nat → Nat) (count : Nat) : List Nat × List Nat :=
  drainLoop arr count 0 [] []

/-- Embeds JVMTIEnvironment::get_loaded_classes, as a function of the
native call's outcome (raw status code, element count, array). Returns the
marshalled result together with the trace of native reads performed. -/
def JVMTIEnvironment.get_loaded_classes (code : Nat) (count : Nat) (arr : Nat → JavaClass) :
    Except NativeError (List JavaClass) × List Nat :=
  match wrap_error code with
  | .NoError => (.ok (drain arr count).1, (drain arr count).2)
  | err => (.error err, [])

/-- Embeds JVMTIEnvironment::get_class_loader_loaded_classes. -/
def JVMTIEnvironment.get_class_loader_loaded_classes (_class_loader : JavaObject)
    (code : Nat) (count : Nat) (arr : Nat → JavaClass) :
    Except NativeError (List JavaClass) × List Nat :=
  match wrap_error code with
  | .NoError => (.ok (drain arr count).1, (drain arr count).2)
  | err => (.error err, [])

/-- Embeds JVMTIEnvironment::get_all_threads. -/
def JVMTIEnvironment.get_all_threads (code : Nat) (count : Nat) (arr : Nat → JavaThread) :
    Except NativeError (List JavaThread) × List Nat :=
  match wrap_error code with
  | .NoError => (.ok (drain arr count).1, (drain arr count).2)
  | err => (.error err, [])

/-- Embeds JVMTIEnvironment::retransform_classes. -/
def JVMTIEnvironment.retransform_classes (code : Nat) (_classes : List JavaClass) :
    Except NativeError Unit :=
  match wrap_error code with
  | .NoError => .ok ()
  | err => .error err

/-- Embeds JVMTIEnvironment::redefine_classes. -/
def JVMTIEnvironment.redefine_classes (code : Nat) (_class_definitions : List JVMTIClassDefinition) :
    Except NativeError Unit :=
  match wrap_error code with
  | .NoError => .ok ()
  | err => .error err

/-- Modelled from the spec: the native side's stored capability set and the
commit semantics of AddCapabilities (§4.2): commit the merge on success,
leave the stored set unchanged on failure. -/
def nativeAddCapabilities (stored new_caps : Capabilities) (code : Nat) : Capabilities :=
  match wrap_error code with
  | .NoError => stored.merge new_caps
  | _ => stored

/-- Embeds JVMTIEnvironment::get_capabilities: query the native-side stored
capability set. -/
def JVMTIEnvironment.get_capabilities (stored : Capabilities) : Capabilities :=
  stored

/-- Embeds JVMTIEnvironment::add_capabilities as a function of the stored
native capability set and the native status: on success the native side
holds the merge and `Ok(self.get_capabilities())` returns it, on failure
the error is surfaced and the stored set is untouched. -/
def JVMTIEnvironment.add_capabilities (stored new_capabilities : Capabilities) (code : Nat) :
    Capabilities × Except NativeError Capabilities :=
  let stored1 := nativeAddCapabilities stored new_capabilities code
  match wrap_error code with
  | .NoError => (stored1, .ok (JVMTIEnvironment.get_capabilities stored1))
  | err => (stored1, .error err)

/-- Modelled from the spec: the register_* functions of event_handler.rs
(not under src/) each copy one handler slot into the env-owned registry;
JVMTIEnvironment::set_event_callbacks calls all nineteen of them, in the
slot order of the native schema, each with the corresponding field of the
supplied table. -/
def registerAll (_old : EventCallbacks) (c : EventCallbacks) : EventCallbacks :=
  { vm_init := c.vm_init
    vm_start := c.vm_start
    vm_death := c.vm_death
    vm_object_alloc := c.vm_object_alloc
    method_entry := c.method_entry
    method_exit := c.method_exit
    thread_start := c.thread_start
    thread_end := c.thread_end
    exception := c.exception
    exception_catch := c.exception_catch
    monitor_wait := c.monitor_wait
    monitor_waited := c.monitor_waited
    monitor_contended_enter := c.monitor_contended_enter
    monitor_contended_entered := c.monitor_contended_entered
    field_access := c.field_access
    field_modification := c.field_modification
    garbage_collection_start := c.garbage_collection_start
    garbage_collection_finish := c.garbage_collection_finish
    class_file_load_hook := c.class_file_load_hook }

/-- Embeds JVMTIEnvironment::set_event_callbacks: register every slot of
the supplied table into the registry, then issue the native call whose
status decides the returned option. -/
def JVMTIEnvironment.set_event_callbacks (registry : EventCallbacks)
    (callbacks : EventCallbacks) (code : Nat) :
    EventCallbacks × Option NativeError :=
  (registerAll registry callbacks,
    match wrap_error code with
    | .NoError => none
    | err => some err)

/-- Modelled from the spec: the native side's per-kind event notification
table updated by SetEventNotificationMode. -/
def nativeSetEventNotificationMode (table : VMEvent → Bool) (event : VMEvent) (mode : Bool) :
    VMEvent → Bool :=
  fun e => if e = event then mode else table e

/-- Embeds JVMTIEnvironment::set_event_notification_mode as a function of
the native status and the native-side notification table. -/
def JVMTIEnvironment.set_event_notification_mode (code : Nat) (table : VMEvent → Bool)
    (event : VMEvent) (mode : Bool) :
    (VMEvent → Bool) × Option NativeError :=
  match wrap_error code with
  | .NoError => (nativeSetEventNotificationMode table event mode, none)
  | err => (table, some err)

/-- The fields of the native jvmtiThreadInfo struct that get_thread_info
marshals: a raw name string handle, a priority and a daemon flag. -/
structure ThreadInfoNative where
  name : Option (List Nat)
  priority : Nat
  is_daemon : Nat
deriving DecidableEq, Repr

/-- Embeds JVMTIEnvironment::get_thread_info, including the check whether
the native function table carries a GetThreadInfo entry: when the entry is
absent the code returns `Err(NativeError::NoError)`. -/
def JVMTIEnvironment.get_thread_info (hasGetThreadInfo : Bool) (code : Nat)
    (thread_id : JavaThread) (info : ThreadInfoNative) :
    Except NativeError Thread :=
  if hasGetThreadInfo then
    match wrap_error code with
    | .NoError =>
      .ok { id := thread_id
            name := stringify info.name
            priority := info.priority
            is_daemon := info.is_daemon > 0 }
    | err => .error err
  else .error .NoError

/-- Embeds JVMTIEnvironment::get_method_declaring_class as a function of
the native status and the class handle the native call writes back. -/
def JVMTIEnvironment.get_method_declaring_class (code : Nat) (_method_id : MethodId)
    (out : JavaClass) : Except NativeError ClassId :=
  match wrap_error code with
  | .NoError => .ok { native_id := out }
  | err => .error err

/-- Embeds JVMTIEnvironment::get_method_name as a function of the native
status and the raw name string the native call writes back. -/
def JVMTIEnvironment.get_method_name (code : Nat) (_method_id : MethodId)
    (name_out : Option (List Nat)) : Except NativeError MethodSignature :=
  match wrap_error code with
  | .NoError => .ok (MethodSignature.new (stringify name_out))
  | err => .error err

/-- Embeds JVMTIEnvironment::get_class_signature as a function of the
native status and the raw signature string the native call writes back. -/
def JVMTIEnvironment.get_class_signature (code : Nat) (_class_id : ClassId)
    (sig_out : Option (List Nat)) : Except NativeError ClassSignature :=
  match wrap_error code with
  | .NoError => .ok (ClassSignature.new (JavaType.parse (stringify sig_out)))
  | err => .error err

/-- Embeds JVMTIEnvironment::allocate as a function of the native status
and the pointer the native call writes back. -/
def JVMTIEnvironment.allocate (code : Nat) (len : Nat) (out_ptr : Nat) :
    Except NativeError MemoryAllocation :=
  match wrap_error code with
  | .NoError => .ok { ptr := out_ptr, len := len }
  | err => .error err

theorem drainLoop_spec (arr : Nat → Nat) :
    ∀ (n ptr : Nat) (acc reads : List Nat),
      drainLoop arr n ptr acc reads =
        (acc ++ (List.range' ptr n).map arr, reads ++ List.range' ptr n) := by
  intro n
  induction n with
  | zero => intro ptr acc reads; simp [drainLoop]
  | succ k ih =>
      intro ptr acc reads
      rw [drainLoop, ih, List.range'_succ]
      simp

theorem drain_spec (arr : Nat → Nat) (count : Nat) :
    drain arr count = ((List.range count).map arr, List.range count) := by
  rw [drain, drainLoop_spec, List.range_eq_range']
  simp

/-- C1: the claim that an event fires only when the notification mode for
its kind is enabled and a handler is registered fails on the code: with a
method-entry handler registered and the method-entry notification mode
never enabled, emit_method_entry still invokes the handler. The trait
documentation in the source (an event must be enabled and have a callback
in order to be sent) supports the claim, so the missing enabled-check in
the emulator's hook is a code bug. -/
theorem c1_emit_fires_without_enable :
    ((JVMEmulator.new.set_event_callbacks
        { EventCallbacks.new with method_entry := some 7 }).1.emit_method_entry
        { method_id := 1, thread_id := 2 }).1 =
      [(7, { method_id := 1, thread_id := 2 })] ∧
    (JVMEmulator.new.set_event_callbacks
        { EventCallbacks.new with method_entry := some 7 }).1.events .MethodEntry = none :=
  ⟨rfl, rfl⟩

/-- C3: add_capabilities is all-or-nothing. On the native environment the
stored set becomes the field-wise OR merge exactly when the native status
is the success status, and is left unchanged otherwise, with the matching
Ok/Err result and with get_capabilities reading back the committed set;
merge is field-wise OR; the emulator commits the merge and returns it. -/
theorem c3_add_capabilities_all_or_nothing (S N : Capabilities) (code : Nat) (s : JVMEmulator) :
    (JVMTIEnvironment.add_capabilities S N code).1 =
      (if wrap_error code = .NoError then S.merge N else S) ∧
    (JVMTIEnvironment.add_capabilities S N code).2 =
      (if wrap_error code = .NoError then .ok (S.merge N) else .error (wrap_error code)) ∧
    JVMTIEnvironment.get_capabilities (JVMTIEnvironment.add_capabilities S N code).1 =
      (if wrap_error code = .NoError then S.merge N else S) ∧
    (S.merge N).can_generate_method_entry_events =
      (S.can_generate_method_entry_events || N.can_generate_method_entry_events) ∧
    (S.merge N).can_tag_objects = (S.can_tag_objects || N.can_tag_objects) ∧
    (S.merge N).can_redefine_classes = (S.can_redefine_classes || N.can_redefine_classes) ∧
    (s.add_capabilities N).1.capabilities = s.capabilities.merge N ∧
    (s.add_capabilities N).2 = .ok (s.capabilities.merge N) ∧
    (s.add_capabilities N).1.get_capabilities = s.capabilities.merge N := by
  refine ⟨?_, ?_, ?_, rfl, rfl, rfl, rfl, rfl, rfl⟩ <;>
    cases h : wrap_error code <;>
      simp [JVMTIEnvironment.add_capabilities, nativeAddCapabilities,
        JVMTIEnvironment.get_capabilities, h]

/-- C4: the array-draining loops of the three bulk queries return, on a
successful native status, exactly the `count` elements of the native array
in order, with a read trace that visits offsets 0..count-1 once each and
in order (so exactly `count` reads, and no read at all when the count is
zero); on a failing status they surface the error without reading. -/
theorem c4_native_array_draining (code count : Nat) (arr : Nat → Nat) (loader : JavaObject) :
    JVMTIEnvironment.get_loaded_classes code count arr =
      (if wrap_error code = .NoError
        then (.ok ((List.range count).map arr), List.range count)
        else (.error (wrap_error code), [])) ∧
    JVMTIEnvironment.get_class_loader_loaded_classes loader code count arr =
      (if wrap_error code = .NoError
        then (.ok ((List.range count).map arr), List.range count)
        else (.error (wrap_error code), [])) ∧
    JVMTIEnvironment.get_all_threads code count arr =
      (if wrap_error code = .NoError
        then (.ok ((List.range count).map arr), List.range count)
        else (.error (wrap_error code), [])) ∧
    ((List.range count).map arr).length = count ∧
    (List.range count).length = count ∧
    (JVMTIEnvironment.get_loaded_classes code 0 arr).2 = [] ∧
    (JVMTIEnvironment.get_class_loader_loaded_classes loader code 0 arr).2 = [] ∧
    (JVMTIEnvironment.get_all_threads code 0 arr).2 = [] := by
  refine ⟨?_, ?_, ?_, by simp, by simp, ?_, ?_, ?_⟩ <;>
    cases h : wrap_error code <;>
      simp [JVMTIEnvironment.get_loaded_classes,
        JVMTIEnvironment.get_class_loader_loaded_classes,
        JVMTIEnvironment.get_all_threads, drain_spec, h]

/-- C6: set_event_callbacks replaces the whole registry in one step: the
emulator's registry becomes exactly the supplied table and the call
succeeds; the native implementation registers every slot from the supplied
table (so the installed registry equals it exactly, with no influence from
the previous registry), and returns the translated native status. -/
theorem c6_set_event_callbacks_replaces (s : JVMEmulator) (old c : EventCallbacks) (code : Nat) :
    (s.set_event_callbacks c).1.callbacks = c ∧
    (s.set_event_callbacks c).2 = none ∧
    (JVMTIEnvironment.set_event_callbacks old c code).1 = c ∧
    (JVMTIEnvironment.set_event_callbacks old c code).2 =
      (if wrap_error code = .NoError then none else some (wrap_error code)) := by
  refine ⟨rfl, rfl, rfl, ?_⟩
  cases h : wrap_error code <;> simp [JVMTIEnvironment.set_event_callbacks, h]

/-- C7 counterexample: the emulator's get_thread_info answers
NotImplemented, not NotAvailable as the claim states. -/
theorem c7_not_available_counterexample :
    JVMEmulator.new.get_thread_info 0 = .error .NotImplemented ∧
    NativeError.NotImplemented ≠ NativeError.NotAvailable :=
  ⟨rfl, by decide⟩

/-- C7 amended: the emulator answers every introspection and redefinition
query it cannot serve from local state with a typed error and no state
change: NotAvailable for the five bulk class/thread and redefinition
operations, NotImplemented for thread/method/class introspection, except
that get_method_name returns a canned empty-name signature for native
method id 1. -/
theorem c7_emulator_canned_results (s : JVMEmulator) (loader : JavaObject)
    (class_defs : List JVMTIClassDefinition) (classes : List JavaClass)
    (t : JavaThread) (m : MethodId) (c : ClassId) (n : Nat) :
    s.get_all_threads = .error .NotAvailable ∧
    s.get_loaded_classes = .error .NotAvailable ∧
    s.get_class_loader_loaded_classes loader = .error .NotAvailable ∧
    s.redefine_classes class_defs = .error .NotAvailable ∧
    s.retransform_classes classes = .error .NotAvailable ∧
    s.get_thread_info t = .error .NotImplemented ∧
    s.get_method_declaring_class m = .error .NotImplemented ∧
    s.get_class_signature c = .error .NotImplemented ∧
    s.get_method_name { native_id := n } =
      (if n = 1 then .ok (MethodSignature.new "") else .error .NotImplemented) :=
  ⟨rfl, rfl, rfl, rfl, rfl, rfl, rfl, rfl, rfl⟩

/-- C8: set_event_notification_mode toggles exactly the given kind: on the
emulator it succeeds, updates only that kind's entry, leaves the registry
and capabilities untouched, and is idempotent; the native-side table update
behaves the same way, and the native call's result is the translated
status. -/
theorem c8_set_event_notification_mode_frame (s : JVMEmulator) (k : VMEvent) (m : Bool)
    (e : VMEvent) (code : Nat) (tbl : VMEvent → Bool) :
    (s.set_event_notification_mode k m).2 = none ∧
    (s.set_event_notification_mode k m).1.events e = (if e = k then some m else s.events e) ∧
    (s.set_event_notification_mode k m).1.callbacks = s.callbacks ∧
    (s.set_event_notification_mode k m).1.capabilities = s.capabilities ∧
    ((s.set_event_notification_mode k m).1.set_event_notification_mode k m).1 =
      (s.set_event_notification_mode k m).1 ∧
    JVMTIEnvironment.set_event_notification_mode code tbl k m =
      (if wrap_error code = .NoError
        then (nativeSetEventNotificationMode tbl k m, none)
        else (tbl, some (wrap_error code))) ∧
    nativeSetEventNotificationMode tbl k m e = (if e = k then m else tbl e) ∧
    nativeSetEventNotificationMode (nativeSetEventNotificationMode tbl k m) k m =
      nativeSetEventNotificationMode tbl k m := by
  refine ⟨rfl, rfl, rfl, rfl, ?_, ?_, rfl, ?_⟩
  · simp only [JVMEmulator.set_event_notification_mode]
    congr 1
    funext x
    by_cases hx : x = k <;> simp [hx]
  · cases h : wrap_error code <;> simp [JVMTIEnvironment.set_event_notification_mode, h]
  · funext x
    by_cases hx : x = k <;> simp [nativeSetEventNotificationMode, hx]

/-- C9: after installing a table whose method-entry slot holds a handler
and enabling the method-entry event, emitting one synthetic method-entry
event through the test-double hook invokes that handler exactly once, with
exactly the supplied payload. -/
theorem c9_emit_scenario (s0 : JVMEmulator) (c : EventCallbacks) (hdl : Handler)
    (ev : MethodInvocationEvent) :
    (((s0.set_event_callbacks { c with method_entry := some hdl }).1.set_event_notification_mode
        .MethodEntry true).1.emit_method_entry ev).1 = [(hdl, ev)] := rfl

/-- C10: emitting a method-entry event when the method-entry slot of the
registry is empty is a total no-op: no handler is invoked and the state
(capabilities, registry, notification table) is returned unchanged. -/
theorem c10_emit_no_handler (s : JVMEmulator) (ev : MethodInvocationEvent) :
    (({ s with callbacks := { s.callbacks with method_entry := none } } : JVMEmulator).emit_method_entry ev).1 = [] ∧
    (({ s with callbacks := { s.callbacks with method_entry := none } } : JVMEmulator).emit_method_entry ev).2 =
      { s with callbacks := { s.callbacks with method_entry := none } } :=
  ⟨rfl, rfl⟩

/-- True unless the value is an Err carrying the success status. -/
def errNotNoError {β : Type} : Except NativeError β → Bool
  | .error .NoError => false
  | _ => true

/-- True unless the option carries the success status as an error. -/
def optNotNoError : Option NativeError → Bool
  | some .NoError => false
  | _ => true

/-- C2 counterexample: when the native function table has no GetThreadInfo
entry, get_thread_info returns Err(NoError) — the success status surfaced
as an error value, which the claim says never happens. -/
theorem c2_err_noerror_counterexample :
    JVMTIEnvironment.get_thread_info false 0 0 { name := none, priority := 0, is_daemon := 0 } =
      .error .NoError := rfl

/-- C2 amended: for every operation of both implementations other than the
native get_thread_info with an absent GetThreadInfo function-table entry,
the success status is filtered into the success branch (the operation
succeeds exactly when the status translates to NoError) and no Err/Some
result ever carries NoError; with the entry present get_thread_info obeys
the same discipline. -/
theorem c2_no_error_filtered (code count : Nat) (arr : Nat → Nat) (loader : JavaObject)
    (classes : List JavaClass) (class_defs : List JVMTIClassDefinition)
    (S N : Capabilities) (old c : EventCallbacks) (tbl : VMEvent → Bool)
    (k : VMEvent) (mo : Bool) (t : JavaThread) (info : ThreadInfoNative)
    (m : MethodId) (cid : ClassId) (name_out sig_out : Option (List Nat))
    (len out : Nat) (s : JVMEmulator) (n : Nat) :
    errNotNoError (JVMTIEnvironment.get_loaded_classes code count arr).1 = true ∧
    (JVMTIEnvironment.get_loaded_classes code count arr).1.isOk =
      decide (wrap_error code = .NoError) ∧
    errNotNoError (JVMTIEnvironment.get_class_loader_loaded_classes loader code count arr).1 = true ∧
    (JVMTIEnvironment.get_class_loader_loaded_classes loader code count arr).1.isOk =
      decide (wrap_error code = .NoError) ∧
    errNotNoError (JVMTIEnvironment.get_all_threads code count arr).1 = true ∧
    (JVMTIEnvironment.get_all_threads code count arr).1.isOk =
      decide (wrap_error code = .NoError) ∧
    errNotNoError (JVMTIEnvironment.retransform_classes code classes) = true ∧
    (JVMTIEnvironment.retransform_classes code classes).isOk =
      decide (wrap_error code = .NoError) ∧
    errNotNoError (JVMTIEnvironment.redefine_classes code class_defs) = true ∧
    (JVMTIEnvironment.redefine_classes code class_defs).isOk =
      decide (wrap_error code = .NoError) ∧
    errNotNoError (JVMTIEnvironment.add_capabilities S N code).2 = true ∧
    (JVMTIEnvironment.add_capabilities S N code).2.isOk =
      decide (wrap_error code = .NoError) ∧
    optNotNoError (JVMTIEnvironment.set_event_callbacks old c code).2 = true ∧
    (JVMTIEnvironment.set_event_callbacks old c code).2.isNone =
      decide (wrap_error code = .NoError) ∧
    optNotNoError (JVMTIEnvironment.set_event_notification_mode code tbl k mo).2 = true ∧
    (JVMTIEnvironment.set_event_notification_mode code tbl k mo).2.isNone =
      decide (wrap_error code = .NoError) ∧
    errNotNoError (JVMTIEnvironment.get_thread_info true code t info) = true ∧
    (JVMTIEnvironment.get_thread_info true code t info).isOk =
      decide (wrap_error code = .NoError) ∧
    errNotNoError (JVMTIEnvironment.get_method_declaring_class code m out) = true ∧
    (JVMTIEnvironment.get_method_declaring_class code m out).isOk =
      decide (wrap_error code = .NoError) ∧
    errNotNoError (JVMTIEnvironment.get_method_name code m name_out) = true ∧
    (JVMTIEnvironment.get_method_name code m name_out).isOk =
      decide (wrap_error code = .NoError) ∧
    errNotNoError (JVMTIEnvironment.get_class_signature code cid sig_out) = true ∧
    (JVMTIEnvironment.get_class_signature code cid sig_out).isOk =
      decide (wrap_error code = .NoError) ∧
    errNotNoError (JVMTIEnvironment.allocate code len out) = true ∧
    (JVMTIEnvironment.allocate code len out).isOk =
      decide (wrap_error code = .NoError) ∧
    errNotNoError s.get_all_threads = true ∧
    errNotNoError s.get_loaded_classes = true ∧
    errNotNoError (s.get_class_loader_loaded_classes loader) = true ∧
    errNotNoError (s.retransform_classes classes) = true ∧
    errNotNoError (s.redefine_classes class_defs) = true ∧
    errNotNoError (s.add_capabilities N).2 = true ∧
    optNotNoError (s.set_event_callbacks c).2 = true ∧
    optNotNoError (s.set_event_notification_mode k mo).2 = true ∧
    errNotNoError (s.get_thread_info t) = true ∧
    errNotNoError (s.get_method_declaring_class m) = true ∧
    errNotNoError (s.get_method_name { native_id := n }) = true ∧
    errNotNoError (s.get_class_signature cid) = true ∧
    errNotNoError (s.allocate len) = true := by
  by_cases hn : n = 1 <;>
  cases h : wrap_error code <;>
    simp [JVMTIEnvironment.get_loaded_classes,
      JVMTIEnvironment.get_class_loader_loaded_classes,
      JVMTIEnvironment.get_all_threads, JVMTIEnvironment.retransform_classes,
      JVMTIEnvironment.redefine_classes, JVMTIEnvironment.add_capabilities,
      JVMTIEnvironment.set_event_callbacks, JVMTIEnvironment.set_event_notification_mode,
      JVMTIEnvironment.get_thread_info, JVMTIEnvironment.get_method_declaring_class,
      JVMTIEnvironment.get_method_name, JVMTIEnvironment.get_class_signature,
      JVMTIEnvironment.allocate, JVMEmulator.get_all_threads, JVMEmulator.get_loaded_classes,
      JVMEmulator.get_class_loader_loaded_classes, JVMEmulator.retransform_classes,
      JVMEmulator.redefine_classes, JVMEmulator.add_capabilities,
      JVMEmulator.set_event_callbacks, JVMEmulator.set_event_notification_mode,
      JVMEmulator.get_thread_info, JVMEmulator.get_method_declaring_class,
      JVMEmulator.get_method_name, JVMEmulator.get_class_signature, JVMEmulator.allocate,
      errNotNoError, optNotNoError, h, hn, Except.isOk, Except.toBool]


theorem utf8Decode_encodeChar (c : Nat)
    (hval : c < 0xD800 ∨ (0xDFFF < c ∧ c < 0x110000)) (bs : List Nat) :
    utf8Decode (utf8EncodeChar c ++ bs) = (utf8Decode bs).map fun cs => c :: cs := by
  by_cases h1 : c < 0x80
  · simp [utf8Decode, utf8EncodeChar, h1, utf8DecodeGo]
  · by_cases h2 : c < 0x800
    · have n1 : ¬ (0xC0 + c / 64 < 0x80) := by omega
      have n2 : ¬ (0xC0 + c / 64 < 0xC2) := by omega
      have n3 : 0xC0 + c / 64 < 0xE0 := by omega
      have p1 : 0x80 ≤ 0x80 + c % 64 := by omega
      have p2 : 0x80 + c % 64 ≤ 0xBF := by omega
      have f1 : (0xC0 + c / 64 - 0xC0) * 64 + (0x80 + c % 64 - 0x80) = c := by omega
      have f2 : c / 64 * 64 + (0x80 + c % 64 - 0x80) = c := by omega
      have f3 : c / 64 * 64 + c % 64 = c := by omega
      simp [utf8Decode, utf8EncodeChar, h1, h2, utf8DecodeGo, n1, n2, n3, p1, p2, f1, f2, f3]
    · by_cases h3 : c < 0x10000
      · have n1 : ¬ (0xE0 + c / 4096 < 0x80) := by omega
        have n2 : ¬ (0xE0 + c / 4096 < 0xC2) := by omega
        have n3 : ¬ (0xE0 + c / 4096 < 0xE0) := by omega
        have p1 : 0x80 ≤ 0x80 + c / 64 % 64 := by omega
        have p2 : 0x80 + c / 64 % 64 ≤ 0xBF := by omega
        have q1 : 0x80 ≤ 0x80 + c % 64 := by omega
        have q2 : 0x80 + c % 64 ≤ 0xBF := by omega
        by_cases hE0 : c < 0x1000
        · have e0 : 0xE0 + c / 4096 = 0xE0 := by omega
          have r1 : 0xA0 ≤ 0x80 + c / 64 % 64 := by omega
          have f1 : (0 * 64 + (0x80 + c / 64 % 64 - 0x80)) * 64 + (0x80 + c % 64 - 0x80) = c := by
            omega
          have f2 : (c / 64 % 64) * 64 + c % 64 = c := by omega
          simp [utf8Decode, utf8EncodeChar, h1, h2, h3, utf8DecodeGo, n1, n2, n3, e0,
            p1, p2, q1, q2, r1, f1, f2]
        · by_cases hED : c / 4096 = 13
          · have hlt : c < 0xD800 := by
              rcases hval with h | h
              · exact h
              · omega
            have e0 : ¬ (0xE0 + c / 4096 = 0xE0) := by omega
            have ed : 0xE0 + c / 4096 = 0xED := by omega
            have r1 : 0x80 + c / 64 % 64 ≤ 0x9F := by omega
            have f1 : (0xD * 64 + (0x80 + c / 64 % 64 - 0x80)) * 64 + (0x80 + c % 64 - 0x80) = c := by
              omega
            have f2 : (0xD * 64 + c / 64 % 64) * 64 + c % 64 = c := by omega
            simp [utf8Decode, utf8EncodeChar, h1, h2, h3, utf8DecodeGo, n1, n2, n3, e0, ed,
              p1, p2, q1, q2, r1, f1, f2]
          · have e0 : ¬ (0xE0 + c / 4096 = 0xE0) := by omega
            have ed : ¬ (0xE0 + c / 4096 = 0xED) := by omega
            have n4 : 0xE0 + c / 4096 < 0xF0 := by omega
            have f1 : ((0xE0 + c / 4096 - 0xE0) * 64 + (0x80 + c / 64 % 64 - 0x80)) * 64 +
                (0x80 + c % 64 - 0x80) = c := by omega
            have f2 : (c / 4096 * 64 + c / 64 % 64) * 64 + c % 64 = c := by omega
            simp [utf8Decode, utf8EncodeChar, h1, h2, h3, utf8DecodeGo, n1, n2, n3, e0, ed, n4,
              p1, p2, q1, q2, f1, f2]
      · have h4 : c < 0x110000 := by
          rcases hval with h | h
          · omega
          · exact h.2
        have n1 : ¬ (0xF0 + c / 0x40000 < 0x80) := by omega
        have n2 : ¬ (0xF0 + c / 0x40000 < 0xC2) := by omega
        have n3 : ¬ (0xF0 + c / 0x40000 < 0xE0) := by omega
        have e0 : ¬ (0xF0 + c / 0x40000 = 0xE0) := by omega
        have ed : ¬ (0xF0 + c / 0x40000 = 0xED) := by omega
        have n4 : ¬ (0xF0 + c / 0x40000 < 0xF0) := by omega
        have p1 : 0x80 ≤ 0x80 + c / 4096 % 64 := by omega
        have p2 : 0x80 + c / 4096 % 64 ≤ 0xBF := by omega
        have q1 : 0x80 ≤ 0x80 + c / 64 % 64 := by omega
        have q2 : 0x80 + c / 64 % 64 ≤ 0xBF := by omega
        have s1 : 0x80 ≤ 0x80 + c % 64 := by omega
        have s2 : 0x80 + c % 64 ≤ 0xBF := by omega
        by_cases hF0 : c < 0x40000
        · have f0 : 0xF0 + c / 0x40000 = 0xF0 := by omega
          have r1 : 0x90 ≤ 0x80 + c / 4096 % 64 := by omega
          have f1 : ((0 * 64 + (0x80 + c / 4096 % 64 - 0x80)) * 64 +
              (0x80 + c / 64 % 64 - 0x80)) * 64 + (0x80 + c % 64 - 0x80) = c := by omega
          have f2 : ((c / 4096 % 64) * 64 + c / 64 % 64) * 64 + c % 64 = c := by omega
          simp [utf8Decode, utf8EncodeChar, h1, h2, h3, utf8DecodeGo, n1, n2, n3, e0, ed, n4,
            f0, p1, p2, q1, q2, s1, s2, r1, f1, f2]
        · by_cases hF4 : c / 0x40000 = 4
          · have f0 : ¬ (0xF0 + c / 0x40000 = 0xF0) := by omega
            have f4 : 0xF0 + c / 0x40000 = 0xF4 := by omega
            have r1 : 0x80 + c / 4096 % 64 ≤ 0x8F := by omega
            have f1 : ((4 * 64 + (0x80 + c / 4096 % 64 - 0x80)) * 64 +
                (0x80 + c / 64 % 64 - 0x80)) * 64 + (0x80 + c % 64 - 0x80) = c := by omega
            have f2 : ((4 * 64 + c / 4096 % 64) * 64 + c / 64 % 64) * 64 + c % 64 = c := by omega
            simp [utf8Decode, utf8EncodeChar, h1, h2, h3, utf8DecodeGo, n1, n2, n3, e0, ed, n4,
              f0, f4, p1, p2, q1, q2, s1, s2, r1, f1, f2]
          · have f0 : ¬ (0xF0 + c / 0x40000 = 0xF0) := by omega
            have f4 : ¬ (0xF0 + c / 0x40000 = 0xF4) := by omega
            have n5 : 0xF0 + c / 0x40000 < 0xF5 := by omega
            have f1 : (((0xF0 + c / 0x40000 - 0xF0) * 64 + (0x80 + c / 4096 % 64 - 0x80)) * 64 +
                (0x80 + c / 64 % 64 - 0x80)) * 64 + (0x80 + c % 64 - 0x80) = c := by omega
            have f2 : ((c / 0x40000 * 64 + c / 4096 % 64) * 64 + c / 64 % 64) * 64 + c % 64 = c := by
              omega
            simp [utf8Decode, utf8EncodeChar, h1, h2, h3, utf8DecodeGo, n1, n2, n3, e0, ed, n4,
              f0, f4, n5, p1, p2, q1, q2, s1, s2, f1, f2]

theorem utf8Decode_encodeString (l : List Char) :
    utf8Decode (l.flatMap fun ch => utf8EncodeChar ch.toNat) = some (l.map Char.toNat) := by
  induction l with
  | nil => rfl
  | cons ch tl ih =>
      have hval : ch.toNat < 0xD800 ∨ (0xDFFF < ch.toNat ∧ ch.toNat < 0x110000) := by
        have h := ch.valid
        simp [UInt32.isValidChar, Nat.isValidChar] at h
        simp only [Char.toNat]
        omega
      rw [List.flatMap_cons, utf8Decode_encodeChar _ hval, ih]
      rfl

theorem stringify_encode (s : String) : stringify (some (utf8EncodeString s)) = s := by
  simp only [stringify, utf8EncodeString]
  rw [utf8Decode_encodeString]
  simp only [List.map_map]
  have hcomp : (Char.ofNat ∘ Char.toNat) = id := funext Char.ofNat_toNat
  rw [hcomp, List.map_id]

/-- C5: stringify is total and never returns an error: a null handle gives
exactly "(NULL)", a handle to bytes that are not valid UTF-8 gives exactly
"(UTF8-ERROR)", and a handle to the UTF-8 encoding of any string gives
exactly that string back. -/
theorem c5_stringify_total (bad : List Nat) (hbad : utf8Decode bad = none) (s : String) :
    stringify none = "(NULL)" ∧
    stringify (some bad) = "(UTF8-ERROR)" ∧
    stringify (some (utf8EncodeString s)) = s := by
  refine ⟨rfl, ?_, stringify_encode s⟩
  simp [stringify, hbad]

/-- C5 witness: the theorem applied at the single overlong lead byte 0xC0
and the string "Hi". -/
theorem c5_stringify_total_witness :
    utf8Decode [0xC0] = none ∧
    (stringify none = "(NULL)" ∧
      stringify (some [0xC0]) = "(UTF8-ERROR)" ∧
      stringify (some (utf8EncodeString "Hi")) = "Hi") :=
  ⟨by decide, c5_stringify_total [0xC0] (by decide) "Hi"⟩
